import Mathlib

/-!
Shallow embedding of the lazygit terminal input-normalization layer
(vendor/github.com/jesseduffield/gocui/tcell_driver.go) and of the
templated candidate extractor described by the specification, together
with theorems settling the frozen claims about them.

Machine integers are modelled as Nat bitmasks (the Go values involved are
small and non-negative, no overflow is reachable); screen coordinates are
modelled as Int (Go int).
-/

namespace Gocui

/-! ## tcell constants (external collaborator, tcell v2)

Values of the tcell button, modifier and key constants used by
tcell_driver.go, as defined in the tcell v2 library: Button1..Button8 are
bits 0..7 of the button mask, the wheel directions are bits 8..11,
ButtonPrimary/Secondary/Middle alias Button1/2/3; ModShift..ModMeta are
bits 0..3 of the modifier mask; KeyRune is 256 and KeyCtrlSpace is 0. -/

def ButtonNone : Nat := 0
def Button1 : Nat := 1
def Button2 : Nat := 2
def Button3 : Nat := 4
def ButtonPrimary : Nat := Button1
def ButtonSecondary : Nat := Button2
def ButtonMiddle : Nat := Button3
def WheelUp : Nat := 256
def WheelDown : Nat := 512
def WheelLeft : Nat := 1024
def WheelRight : Nat := 2048

def ModNone : Nat := 0
def ModShift : Nat := 1
def ModCtrl : Nat := 2
def ModAlt : Nat := 4

def KeyRune : Nat := 256
def KeyCtrlSpace : Nat := 0

/-! ## gocui mouse-key and modifier constants

Modelled from the spec: the enumerated mouse keys (Left, Right, Middle,
Release, WheelUp, WheelDown, WheelLeft, WheelRight) and the dedicated
"motion" modifier are gocui constants declared outside the available
sources; all that matters for the claims is that they are distinct
values, and that the normalized ModNone is 0 (the zero Modifier). -/

def MouseLeft : Nat := 65512
def MouseMiddle : Nat := 65511
def MouseRight : Nat := 65510
def MouseRelease : Nat := 65509
def MouseWheelUp : Nat := 65508
def MouseWheelDown : Nat := 65507
def MouseWheelLeft : Nat := 65506
def MouseWheelRight : Nat := 65505
def ModMotion : Nat := 16

/-! ## Raw and normalized events -/

/-- A raw tcell event as consumed by pollEvent: one of EventInterrupt,
EventResize, EventKey, EventMouse, EventError, or any other (unrecognized)
event type.  The error cause is modelled as an opaque Nat. -/
inductive TcellEvent where
  | interrupt : TcellEvent
  | resize (w h : Int) : TcellEvent
  | key (k : Nat) (ch : Nat) (mod : Nat) : TcellEvent
  | mouse (x y : Int) (buttons : Nat) (mod : Nat) : TcellEvent
  | error (cause : Nat) : TcellEvent
  | unknown : TcellEvent
deriving DecidableEq, Repr

/-- gocuiEventType from tcell_driver.go (iota order). -/
inductive gocuiEventType where
  | eventNone
  | eventKey
  | eventResize
  | eventMouse
  | eventInterrupt
  | eventError
  | eventRaw
deriving DecidableEq, Repr

/-- GocuiEvent from tcell_driver.go; unused fields carry Go zero values
(the nil error is modelled as none). -/
structure GocuiEvent where
  type : gocuiEventType := .eventNone
  Mod : Nat := 0
  Key : Nat := 0
  Ch : Nat := 0
  Width : Int := 0
  Height : Int := 0
  Err : Option Nat := none
  MouseX : Int := 0
  MouseY : Int := 0
  N : Int := 0
deriving DecidableEq, Repr

/-- The package-level mutable gesture state of tcell_driver.go
(lastMouseKey, lastMouseMod, dragState, lastX, lastY). -/
structure DragState where
  lastMouseKey : Nat
  lastMouseMod : Nat
  dragState : Nat
  lastX : Int
  lastY : Int
deriving DecidableEq, Repr

def NOT_DRAGGING : Nat := 0
def MAYBE_DRAGGING : Nat := 1
def DRAGGING : Nat := 2

/-- The initial values of the package-level variables. -/
def initialState : DragState :=
  { lastMouseKey := ButtonNone, lastMouseMod := 0, dragState := NOT_DRAGGING
    lastX := 0, lastY := 0 }

/-- The EventKey branch of pollEvent (tcell_driver.go lines 131-160):
rune handling with the spacebar special case, then the modifier
resolution chain (ctrl+space, then bare Ctrl or bare Shift dropped). -/
def pollKey (k0 ch0 mod0 : Nat) : GocuiEvent :=
  -- k := tev.Key(); ch := rune(0); if k == KeyRune { k = 0; ch = tev.Rune();
  --   if ch == ' ' { k = 32; ch = rune(0) } }
  let kch : Nat × Nat :=
    if k0 = KeyRune then
      (if ch0 = 32 then (32, 0) else (0, ch0))
    else (k0, 0)
  -- mod := tev.Modifiers(); ctrl+space / bare-Ctrl / bare-Shift handling
  let kchm : Nat × Nat × Nat :=
    if mod0 = ModCtrl ∧ kch.1 = 32 then (KeyCtrlSpace, 0, 0)
    else if mod0 = ModCtrl ∨ mod0 = ModShift then (kch.1, kch.2, 0)
    else (kch.1, kch.2, mod0)
  { type := .eventKey, Key := kchm.1, Ch := kchm.2.1, Mod := kchm.2.2 }

/-- The EventMouse branch of pollEvent (tcell_driver.go lines 161-233),
with the package-level state passed and returned explicitly.  The four
wheel checks shadow mouseKey in source order (a later match overwrites an
earlier one); the press branch, the release branch (switch on the raw
button mask) and the dragState switch follow the source statement by
statement. -/
def pollMouse (s0 : DragState) (x y : Int) (buttons mods : Nat) :
    DragState × GocuiEvent :=
  let mouseKey := MouseRelease
  let mouseMod := ModNone
  -- process mouse wheel
  let mouseKey := if buttons &&& WheelUp ≠ 0 then MouseWheelUp else mouseKey
  let mouseKey := if buttons &&& WheelDown ≠ 0 then MouseWheelDown else mouseKey
  let mouseKey := if buttons &&& WheelLeft ≠ 0 then MouseWheelLeft else mouseKey
  let mouseKey := if buttons &&& WheelRight ≠ 0 then MouseWheelRight else mouseKey
  -- process button events (not wheel events): button &= 0xff
  let button := buttons &&& 255
  let s1 :=
    if button ≠ ButtonNone ∧ s0.lastMouseKey = ButtonNone then
      let s := { s0 with lastMouseKey := button, lastMouseMod := mods }
      if button = ButtonPrimary then
        { s with dragState := MAYBE_DRAGGING, lastX := x, lastY := y }
      else s
    else s0
  let mouseKey :=
    if button ≠ ButtonNone ∧ s0.lastMouseKey = ButtonNone then
      if button = ButtonPrimary then MouseLeft
      else if button = ButtonSecondary then MouseRight
      else if button = ButtonMiddle then MouseMiddle
      else mouseKey
    else mouseKey
  -- switch tev.Buttons() { case ButtonNone: ... } (the release branch);
  -- mouseMod is read from lastMouseMod before it is cleared
  let s2 :=
    if buttons = ButtonNone ∧ s1.lastMouseKey ≠ ButtonNone then
      let s := if s1.lastMouseKey = ButtonPrimary then
                 { s1 with dragState := NOT_DRAGGING }
               else s1
      { s with lastMouseMod := 0, lastMouseKey := ButtonNone }
    else s1
  let mouseMod :=
    if buttons = ButtonNone ∧ s1.lastMouseKey ≠ ButtonNone then s1.lastMouseMod
    else mouseMod
  -- switch dragState
  if s2.dragState = NOT_DRAGGING then
    (s2, { type := .eventNone })
  else
    let s3 :=
      if s2.dragState = MAYBE_DRAGGING ∧ (x ≠ s2.lastX ∨ y ≠ s2.lastY) then
        { s2 with dragState := DRAGGING }
      else s2
    let mouseKey := if s2.dragState = DRAGGING then MouseLeft else mouseKey
    let mouseMod := if s2.dragState = DRAGGING then ModMotion else mouseMod
    (s3, { type := .eventMouse, MouseX := x, MouseY := y, Key := mouseKey
           Ch := 0, Mod := mouseMod })

/-- pollEvent from tcell_driver.go: one raw event in, the updated gesture
state and one normalized event out.  The source switch has cases only for
EventInterrupt, EventResize, EventKey and EventMouse; every other raw
event type, the error event included, falls to the default arm returning
eventNone. -/
def pollEvent (s : DragState) (tev : TcellEvent) : DragState × GocuiEvent :=
  match tev with
  | .interrupt => (s, { type := .eventInterrupt })
  | .resize w h => (s, { type := .eventResize, Width := w, Height := h })
  | .key k ch mod => (s, pollKey k ch mod)
  | .mouse x y buttons mods => pollMouse s x y buttons mods
  | .error _ => (s, { type := .eventNone })
  | .unknown => (s, { type := .eventNone })

/-- Folding pollEvent over a list of raw events, keeping the final state. -/
def runEvents (s : DragState) (evs : List TcellEvent) : DragState :=
  evs.foldl (fun s ev => (pollEvent s ev).1) s

/-! ## Attribute / style encoder (tcell_driver.go lines 33-74) -/

/-- gocui Attribute: a Nat bitmask. -/
abbrev Attribute := Nat

/-- Modelled from the spec: the Attribute constants of gocui
(attribute.go is not among the available sources).  Per the spec an
Attribute is "a bitmask combining a color selector (a special default
sentinel, or a concrete color value) with independent style flags"; the
sentinel and the seven flags are distinct bits above the color value
bits.  The exact bit positions are not observable by the claims. -/
def ColorDefault : Attribute := 1 <<< 25

def AttrBold : Attribute := 1 <<< 32
def AttrUnderline : Attribute := 1 <<< 33
def AttrReverse : Attribute := 1 <<< 34
def AttrBlink : Attribute := 1 <<< 35
def AttrDim : Attribute := 1 <<< 36
def AttrItalic : Attribute := 1 <<< 37
def AttrStrikeThrough : Attribute := 1 <<< 38

/-- tcell.Style, modelled as its observable content: a foreground color,
a background color, and the set of font-effect flags (tcell stores the
flags in one attribute mask shared by the style). -/
structure Style where
  fg : Nat := 0
  bg : Nat := 0
  bold : Bool := false
  underline : Bool := false
  reverse : Bool := false
  blink : Bool := false
  dim : Bool := false
  italic : Bool := false
  strikeThrough : Bool := false
deriving DecidableEq, Repr

/-- tcell.StyleDefault: default colors (0 marks the terminal default in
this model), no flags. -/
def StyleDefault : Style := {}

def Style.Foreground (st : Style) (c : Nat) : Style := { st with fg := c }

def Style.Background (st : Style) (c : Nat) : Style := { st with bg := c }

def Style.Bold (st : Style) (b : Bool) : Style := { st with bold := b }

def Style.Underline (st : Style) (b : Bool) : Style := { st with underline := b }

def Style.Reverse (st : Style) (b : Bool) : Style := { st with reverse := b }

def Style.Blink (st : Style) (b : Bool) : Style := { st with blink := b }

def Style.Dim (st : Style) (b : Bool) : Style := { st with dim := b }

def Style.Italic (st : Style) (b : Bool) : Style := { st with italic := b }

def Style.StrikeThrough (st : Style) (b : Bool) : Style := { st with strikeThrough := b }

/-- Modelled from the spec: getTcellColor (defined outside the available
sources) maps the color bits of an Attribute to a tcell color for the
given output mode; the claims do not depend on its values, only on
whether it is invoked.  Modelled as extracting the color value bits. -/
def getTcellColor (c : Attribute) (_omode : Nat) : Nat := c &&& (1 <<< 25 - 1)

/-- setTcellFontEffectStyle from tcell_driver.go lines 51-74: each of the
seven flag bits present in attr is applied to the style in turn. -/
def setTcellFontEffectStyle (st : Style) (attr : Attribute) : Style :=
  let st := if attr &&& AttrBold ≠ 0 then st.Bold true else st
  let st := if attr &&& AttrUnderline ≠ 0 then st.Underline true else st
  let st := if attr &&& AttrReverse ≠ 0 then st.Reverse true else st
  let st := if attr &&& AttrBlink ≠ 0 then st.Blink true else st
  let st := if attr &&& AttrDim ≠ 0 then st.Dim true else st
  let st := if attr &&& AttrItalic ≠ 0 then st.Italic true else st
  let st := if attr &&& AttrStrikeThrough ≠ 0 then st.StrikeThrough true else st
  st

/-- getTcellStyle from tcell_driver.go lines 34-48: start from the
default style; for each channel whose Attribute is not ColorDefault, set
its color and apply its font-effect flags. -/
def getTcellStyle (fg bg : Attribute) (omode : Nat) : Style :=
  let st := StyleDefault
  let st :=
    if fg ≠ ColorDefault then
      setTcellFontEffectStyle (st.Foreground (getTcellColor fg omode)) fg
    else st
  let st :=
    if bg ≠ ColorDefault then
      setTcellFontEffectStyle (st.Background (getTcellColor bg omode)) bg
    else st
  st

end Gocui

namespace Extractor

/-! ## Templated candidate extraction

The extractor (GenerateMenuCandidates and its template/regex helpers) is
not among the available sources; only its test, pkg/gui/gui_test.go, is.
Per the spec (section 4.3) it is modelled here: per line of the input,
match the pattern, expose every named capture group under its name and
every group under the positional key group_N (N the 1-based index),
render the value template, use the rendered value as label when the
label template is empty, and abort the whole call on an unresolvable
template reference.  none is the TemplateError outcome; PatternError
belongs to compiling the external regular expression, which is modelled
only through the match function for the (valid) scenario pattern. -/

/-- A produced candidate, named as in gui_test.go. -/
structure commandMenuEntry where
  label : String
  value : String
deriving DecidableEq, Repr

/-- Modelled from the spec: splitting the input text into lines, the
empty trailing line ignored. -/
def splitLinesAux (acc : List Char) : List Char → List (List Char)
  | [] => [acc.reverse]
  | '\n' :: rest => acc.reverse :: splitLinesAux [] rest
  | c :: rest => splitLinesAux (c :: acc) rest

def splitLines (t : String) : List String :=
  let ls := splitLinesAux [] t.data
  let ls := if ls.getLast? = some [] then ls.dropLast else ls
  ls.map (fun l => String.mk l)

/-- Modelled from the spec: the substitution context built from the
capture groups of a match (each group given as an optional name and the
captured text): every named group under its name, and every group under
group_N with N its 1-based index. -/
def buildContext (caps : List (Option String × String)) : List (String × String) :=
  caps.filterMap (fun c => c.1.map (fun n => (n, c.2)))
    ++ caps.enum.map (fun p => ("group_" ++ toString (p.1 + 1), p.2.2))

/-- First binding of a key in the context (none when the template
references a group absent from the pattern). -/
def lookupCtx : List (String × String) → List Char → Option (List Char)
  | [], _ => none
  | (k, v) :: rest, key => if k.data = key then some v.data else lookupCtx rest key

/-- Modelled from the spec: template rendering by simple substitution.
A reference is written as two opening braces, a space, a dot, the group
name, a space and two closing braces; everything else is literal text.
The first argument is none while scanning literal text and some acc
(the reference name read so far, reversed) inside a reference; an
unresolvable reference yields none (TemplateError). -/
def renderAux (ctx : List (String × String)) :
    Option (List Char) → List Char → Option (List Char)
  | none, [] => some []
  | none, '\x7b' :: '\x7b' :: ' ' :: '.' :: rest => renderAux ctx (some []) rest
  | none, c :: rest => (renderAux ctx none rest).map (c :: ·)
  | some _, [] => none
  | some acc, ' ' :: '\x7d' :: '\x7d' :: rest =>
      match lookupCtx ctx acc.reverse with
      | some v => (renderAux ctx none rest).map (v ++ ·)
      | none => none
  | some acc, c :: rest => renderAux ctx (some (c :: acc)) rest

def renderTemplate (tmpl : String) (ctx : List (String × String)) : Option String :=
  (renderAux ctx none tmpl.data).map String.mk

/-- Modelled from the spec: the extractor core.  The external regular
expression engine is abstracted as a match function from a line to the
capture groups of its match, if any.  Per matching line, render the
value template, use the rendered value as the label when the label
template is empty and render the label template otherwise, and append
the (label, value) pair in line order; a failed render aborts the whole
call. -/
def extractLines (matcher : String → Option (List (Option String × String)))
    (valueFormat labelFormat : String) :
    List String → Option (List commandMenuEntry)
  | [] => some []
  | line :: rest => do
      let entries ← extractLines matcher valueFormat labelFormat rest
      match matcher line with
      | none => pure entries
      | some caps =>
          let ctx := buildContext caps
          let value ← renderTemplate valueFormat ctx
          let label ←
            if labelFormat = "" then pure value
            else renderTemplate labelFormat ctx
          pure ({ label := label, value := value } :: entries)

def GenerateMenuCandidates (matcher : String → Option (List (Option String × String)))
    (cmdOut valueFormat labelFormat : String) :
    Option (List commandMenuEntry) :=
  extractLines matcher valueFormat labelFormat (splitLines cmdOut)

/-- Splits a character list at the first occurrence of the separator. -/
def splitFirst (sep : Char) : List Char → Option (List Char × List Char)
  | [] => none
  | c :: rest =>
      if c = sep then some ([], rest)
      else (splitFirst sep rest).map (fun p => (c :: p.1, p.2))

/-- Modelled from the spec: the external regular expression engine
applied to the scenario pattern with two named groups, remote of one or
more lowercase letters or underscores and branch of the rest after a
slash.  On a line whose first slash is preceded by a nonempty run of
such characters (the shape of every scenario input) the match captures
that run as group 1 (remote) and the remainder as group 2 (branch). -/
def matchRemoteBranch (line : String) : Option (List (Option String × String)) :=
  match splitFirst '/' line.data with
  | none => none
  | some (pre, post) =>
      if pre ≠ [] ∧ pre.all (fun c => ('a' ≤ c ∧ c ≤ 'z') ∨ c = '_') then
        some [(some "remote", String.mk pre), (some "branch", String.mk post)]
      else none

end Extractor

namespace Gocui

/-- The gesture-state invariant: the drag phase is away from NOT_DRAGGING
exactly when the recorded held button is the primary button. -/
def GestureInv (s : DragState) : Prop :=
  s.dragState ≠ NOT_DRAGGING ↔ s.lastMouseKey = ButtonPrimary

/-- The state component of pollMouse, factored out for the invariant
proofs; proven equal to (pollMouse s0 x y buttons mods).1 below. -/
def mouseStep (s0 : DragState) (x y : Int) (buttons mods : Nat) : DragState :=
  let button := buttons &&& 255
  let s1 :=
    if button ≠ ButtonNone ∧ s0.lastMouseKey = ButtonNone then
      let s := { s0 with lastMouseKey := button, lastMouseMod := mods }
      if button = ButtonPrimary then
        { s with dragState := MAYBE_DRAGGING, lastX := x, lastY := y }
      else s
    else s0
  let s2 :=
    if buttons = ButtonNone ∧ s1.lastMouseKey ≠ ButtonNone then
      let s := if s1.lastMouseKey = ButtonPrimary then
                 { s1 with dragState := NOT_DRAGGING }
               else s1
      { s with lastMouseMod := 0, lastMouseKey := ButtonNone }
    else s1
  if s2.dragState = NOT_DRAGGING then s2
  else
    if s2.dragState = MAYBE_DRAGGING ∧ (x ≠ s2.lastX ∨ y ≠ s2.lastY) then
      { s2 with dragState := DRAGGING }
    else s2

end Gocui

open Gocui Extractor

/-! ## Helper lemmas -/

set_option maxHeartbeats 2000000 in
/-- Characterization of setTcellFontEffectStyle: each flag of the result
is the old flag or the presence of the matching bit, and the colors are
untouched. -/
theorem setTcellFontEffectStyle_spec (st : Style) (a : Attribute) :
    setTcellFontEffectStyle st a =
      { st with
        bold := st.bold || decide (a &&& AttrBold ≠ 0)
        underline := st.underline || decide (a &&& AttrUnderline ≠ 0)
        reverse := st.reverse || decide (a &&& AttrReverse ≠ 0)
        blink := st.blink || decide (a &&& AttrBlink ≠ 0)
        dim := st.dim || decide (a &&& AttrDim ≠ 0)
        italic := st.italic || decide (a &&& AttrItalic ≠ 0)
        strikeThrough := st.strikeThrough || decide (a &&& AttrStrikeThrough ≠ 0) } := by
  unfold setTcellFontEffectStyle Style.Bold Style.Underline Style.Reverse
    Style.Blink Style.Dim Style.Italic Style.StrikeThrough
  by_cases h1 : a &&& AttrBold ≠ 0 <;>
    by_cases h2 : a &&& AttrUnderline ≠ 0 <;>
      by_cases h3 : a &&& AttrReverse ≠ 0 <;>
        by_cases h4 : a &&& AttrBlink ≠ 0 <;>
          by_cases h5 : a &&& AttrDim ≠ 0 <;>
            by_cases h6 : a &&& AttrItalic ≠ 0 <;>
              by_cases h7 : a &&& AttrStrikeThrough ≠ 0 <;>
                simp [h1, h2, h3, h4, h5, h6, h7]

/-! ## Claim theorems -/

/-- C1: the claim states that pressing and releasing the primary button
at the same position yields a Mouse press event and then a Mouse release
event with the press-time modifiers.  Evaluating the code at that input
shows the press does yield Mouse/Left and the phase never passes
MAYBE_DRAGGING, but the release yields the None event: the dragState
switch returns eventNone once the release has reset dragState to
NOT_DRAGGING, discarding the release key and the captured modifiers. -/
theorem c1_same_position_click_eval :
    (pollEvent initialState (.mouse 5 5 Button1 ModNone)).1.dragState = MAYBE_DRAGGING
    ∧ (pollEvent initialState (.mouse 5 5 Button1 ModNone)).2
        = { type := .eventMouse, MouseX := 5, MouseY := 5, Key := MouseLeft
            Ch := 0, Mod := ModNone }
    ∧ (pollEvent (pollEvent initialState (.mouse 5 5 Button1 ModNone)).1
         (.mouse 5 5 ButtonNone ModNone)).1.dragState = NOT_DRAGGING
    ∧ (pollEvent (pollEvent initialState (.mouse 5 5 Button1 ModNone)).1
         (.mouse 5 5 ButtonNone ModNone)).2 = { type := .eventNone } := by
  decide

/-- C2: the claim states that a wheel event always yields the matching
wheel key, in every drag phase, without mutating the phase.  Evaluating
the code: in the initial (NOT_DRAGGING) state a wheel-up raw event
produces the None event, not a WheelUp mouse event; and once the phase
is DRAGGING, a wheel-up bit on a motion event is overridden to
MouseLeft with the motion modifier. -/
theorem c2_wheel_event_eval :
    pollEvent initialState (.mouse 3 4 WheelUp ModNone)
      = (initialState, { type := .eventNone })
    ∧ (runEvents initialState
        [.mouse 0 0 Button1 ModNone, .mouse 1 0 Button1 ModNone]).dragState = DRAGGING
    ∧ (pollEvent (runEvents initialState
          [.mouse 0 0 Button1 ModNone, .mouse 1 0 Button1 ModNone])
         (.mouse 1 0 (Button1 ||| WheelUp) ModNone)).2
        = { type := .eventMouse, MouseX := 1, MouseY := 0, Key := MouseLeft
            Ch := 0, Mod := ModMotion } := by
  decide

/-- C3: the claim states that a raw error event is passed through as the
Error variant carrying its cause.  Evaluating the code: the pollEvent
switch has no case for the error event type, so every raw error event
falls to the default arm and is returned as the None event, with no Err
payload and the state untouched. -/
theorem c3_error_event_eval (s : DragState) (cause : Nat) :
    pollEvent s (.error cause) = (s, { type := .eventNone }) := rfl

/-- C5: a raw rune-space key event with no modifiers yields a Key event
with the dedicated space key code 32 and rune 0; with exactly the Ctrl
modifier it yields the dedicated KeyCtrlSpace code with modifiers
cleared and rune 0.  The gesture state is untouched. -/
theorem c5_space_key (s : DragState) :
    pollEvent s (.key KeyRune 32 ModNone)
      = (s, { type := .eventKey, Key := 32, Ch := 0, Mod := ModNone })
    ∧ pollEvent s (.key KeyRune 32 ModCtrl)
      = (s, { type := .eventKey, Key := KeyCtrlSpace, Ch := 0, Mod := ModNone }) :=
  ⟨rfl, rfl⟩

/-- C6 counterexample: the claim states that no flag of a default-colored
channel is ever applied, regardless of which flag bits are set in that
Attribute.  The Attribute combining the ColorDefault sentinel with the
Bold flag bit carries the default color selector yet is not equal to the
ColorDefault value, so the source test fg != ColorDefault fires and the
Bold flag IS applied to the resulting style. -/
theorem c6_counterexample :
    (ColorDefault ||| AttrBold) &&& ColorDefault ≠ 0
    ∧ (ColorDefault ||| AttrBold) &&& AttrBold ≠ 0
    ∧ (ColorDefault ||| AttrBold) ≠ ColorDefault
    ∧ (getTcellStyle (ColorDefault ||| AttrBold) ColorDefault 0).bold = true := by
  decide

/-- C6 as amended: when both Attributes equal the ColorDefault value the
encoder returns exactly the default style; and a channel contributes no
color and no flags exactly when its Attribute equals the ColorDefault
value (each flag of the output holds exactly when the non-fixed channel
differs from ColorDefault and has the matching flag bit set, so a
default-colored Attribute that carries flag bits does get them applied). -/
theorem c6_default_channels (fg bg : Attribute) (om : Nat) :
    getTcellStyle ColorDefault ColorDefault om = StyleDefault
    ∧ (((getTcellStyle ColorDefault bg om).bold = true
          ↔ bg ≠ ColorDefault ∧ bg &&& AttrBold ≠ 0)
       ∧ ((getTcellStyle ColorDefault bg om).underline = true
          ↔ bg ≠ ColorDefault ∧ bg &&& AttrUnderline ≠ 0)
       ∧ ((getTcellStyle ColorDefault bg om).reverse = true
          ↔ bg ≠ ColorDefault ∧ bg &&& AttrReverse ≠ 0)
       ∧ ((getTcellStyle ColorDefault bg om).blink = true
          ↔ bg ≠ ColorDefault ∧ bg &&& AttrBlink ≠ 0)
       ∧ ((getTcellStyle ColorDefault bg om).dim = true
          ↔ bg ≠ ColorDefault ∧ bg &&& AttrDim ≠ 0)
       ∧ ((getTcellStyle ColorDefault bg om).italic = true
          ↔ bg ≠ ColorDefault ∧ bg &&& AttrItalic ≠ 0)
       ∧ ((getTcellStyle ColorDefault bg om).strikeThrough = true
          ↔ bg ≠ ColorDefault ∧ bg &&& AttrStrikeThrough ≠ 0))
    ∧ (((getTcellStyle fg ColorDefault om).bold = true
          ↔ fg ≠ ColorDefault ∧ fg &&& AttrBold ≠ 0)
       ∧ ((getTcellStyle fg ColorDefault om).underline = true
          ↔ fg ≠ ColorDefault ∧ fg &&& AttrUnderline ≠ 0)
       ∧ ((getTcellStyle fg ColorDefault om).reverse = true
          ↔ fg ≠ ColorDefault ∧ fg &&& AttrReverse ≠ 0)
       ∧ ((getTcellStyle fg ColorDefault om).blink = true
          ↔ fg ≠ ColorDefault ∧ fg &&& AttrBlink ≠ 0)
       ∧ ((getTcellStyle fg ColorDefault om).dim = true
          ↔ fg ≠ ColorDefault ∧ fg &&& AttrDim ≠ 0)
       ∧ ((getTcellStyle fg ColorDefault om).italic = true
          ↔ fg ≠ ColorDefault ∧ fg &&& AttrItalic ≠ 0)
       ∧ ((getTcellStyle fg ColorDefault om).strikeThrough = true
          ↔ fg ≠ ColorDefault ∧ fg &&& AttrStrikeThrough ≠ 0)) := by
  refine ⟨rfl, ⟨?_, ?_, ?_, ?_, ?_, ?_, ?_⟩, ⟨?_, ?_, ?_, ?_, ?_, ?_, ?_⟩⟩ <;>
    · simp only [getTcellStyle, setTcellFontEffectStyle_spec, StyleDefault,
        Style.Foreground, Style.Background]
      split_ifs with h <;> simp_all

/-- C7: flag application in the style encoder is additive (each flag of
the result is the base flag or the presence of the matching bit in the
Attribute, each of the seven independently), idempotent, and
order-independent. -/
theorem c7_flag_application_algebra (st : Style) (a b : Attribute) :
    (((setTcellFontEffectStyle st a).bold = true
        ↔ st.bold = true ∨ a &&& AttrBold ≠ 0)
     ∧ ((setTcellFontEffectStyle st a).underline = true
        ↔ st.underline = true ∨ a &&& AttrUnderline ≠ 0)
     ∧ ((setTcellFontEffectStyle st a).reverse = true
        ↔ st.reverse = true ∨ a &&& AttrReverse ≠ 0)
     ∧ ((setTcellFontEffectStyle st a).blink = true
        ↔ st.blink = true ∨ a &&& AttrBlink ≠ 0)
     ∧ ((setTcellFontEffectStyle st a).dim = true
        ↔ st.dim = true ∨ a &&& AttrDim ≠ 0)
     ∧ ((setTcellFontEffectStyle st a).italic = true
        ↔ st.italic = true ∨ a &&& AttrItalic ≠ 0)
     ∧ ((setTcellFontEffectStyle st a).strikeThrough = true
        ↔ st.strikeThrough = true ∨ a &&& AttrStrikeThrough ≠ 0))
    ∧ setTcellFontEffectStyle (setTcellFontEffectStyle st a) a
        = setTcellFontEffectStyle st a
    ∧ setTcellFontEffectStyle (setTcellFontEffectStyle st a) b
        = setTcellFontEffectStyle (setTcellFontEffectStyle st b) a := by
  simp only [setTcellFontEffectStyle_spec]
  refine ⟨⟨?_, ?_, ?_, ?_, ?_, ?_, ?_⟩, ?_, ?_⟩ <;>
    simp [Bool.or_assoc, Bool.or_comm, Bool.or_left_comm]

/-- C8: on input text upstream/pr-1 with the two-named-group pattern,
the extractor with value template referencing branch and label template
"Remote: " plus remote yields exactly one candidate (value pr-1, label
Remote: upstream); with the positional keys group_2 and group_1 in place
of the names it yields the identical result. -/
theorem c8_named_and_positional_groups :
    GenerateMenuCandidates matchRemoteBranch "upstream/pr-1"
        "\x7b\x7b .branch \x7d\x7d" "Remote: \x7b\x7b .remote \x7d\x7d"
      = some [{ label := "Remote: upstream", value := "pr-1" }]
    ∧ GenerateMenuCandidates matchRemoteBranch "upstream/pr-1"
        "\x7b\x7b .group_2 \x7d\x7d" "Remote: \x7b\x7b .group_1 \x7d\x7d"
      = some [{ label := "Remote: upstream", value := "pr-1" }] := by
  exact ⟨by decide, by decide⟩

/-- The state component of pollMouse equals mouseStep. -/
theorem pollMouse_fst (s0 : DragState) (x y : Int) (buttons mods : Nat) :
    (pollMouse s0 x y buttons mods).1 = mouseStep s0 x y buttons mods := by
  simp only [pollMouse, mouseStep, apply_ite Prod.fst]

set_option maxHeartbeats 2000000 in
/-- One mouse step preserves the gesture invariant. -/
theorem mouseStep_inv (s0 : DragState) (x y : Int) (buttons mods : Nat)
    (h : GestureInv s0) : GestureInv (mouseStep s0 x y buttons mods) := by
  simp only [GestureInv, mouseStep, NOT_DRAGGING, MAYBE_DRAGGING, DRAGGING,
    ButtonNone, ButtonPrimary, Button1] at *
  split_ifs <;> simp_all

/-- Every translate call preserves the gesture invariant. -/
theorem pollEvent_inv (s : DragState) (ev : TcellEvent) (h : GestureInv s) :
    GestureInv (pollEvent s ev).1 := by
  cases ev with
  | mouse x y buttons mods =>
      rw [pollEvent, pollMouse_fst]; exact mouseStep_inv s x y buttons mods h
  | interrupt => exact h
  | resize w hh => exact h
  | key k ch mod => exact h
  | error c => exact h
  | unknown => exact h

/-- The gesture invariant holds along any event sequence. -/
theorem runEvents_inv (evs : List TcellEvent) (s : DragState) (h : GestureInv s) :
    GestureInv (runEvents s evs) := by
  induction evs generalizing s with
  | nil => exact h
  | cons e t ih => exact ih (pollEvent s e).1 (pollEvent_inv s e h)

set_option maxHeartbeats 2000000 in
/-- A secondary- or middle-button mouse event never moves the drag phase
out of NOT_DRAGGING. -/
theorem mouseStep_nonprimary (s : DragState) (x y : Int) (b m : Nat)
    (hd : s.dragState = NOT_DRAGGING)
    (hb : b &&& 255 = ButtonSecondary ∨ b &&& 255 = ButtonMiddle) :
    (mouseStep s x y b m).dragState = NOT_DRAGGING := by
  have hb0 : b ≠ 0 := by
    intro h0; subst h0; simp [ButtonSecondary, ButtonMiddle, Button2, Button3] at hb
  have hb1 : b &&& 255 ≠ ButtonPrimary := by
    rcases hb with h | h <;> simp [h, ButtonSecondary, ButtonMiddle,
      ButtonPrimary, Button1, Button2, Button3]
  simp only [mouseStep, NOT_DRAGGING, MAYBE_DRAGGING, DRAGGING, ButtonNone] at *
  split_ifs <;> simp_all

set_option maxHeartbeats 2000000 in
/-- A primary-button press from a clean gesture state records the button
and press position, arms the drag (MAYBE_DRAGGING) and emits Mouse/Left. -/
theorem pollMouse_press_primary (s : DragState) (x y : Int) (m : Nat)
    (hk : s.lastMouseKey = ButtonNone) :
    pollMouse s x y Button1 m
      = ({ lastMouseKey := Button1, lastMouseMod := m, dragState := MAYBE_DRAGGING
           lastX := x, lastY := y },
         { type := .eventMouse, MouseX := x, MouseY := y, Key := MouseLeft
           Ch := 0, Mod := ModNone }) := by
  simp [pollMouse, hk, NOT_DRAGGING, MAYBE_DRAGGING, DRAGGING, ButtonNone,
    ButtonPrimary, ButtonSecondary, ButtonMiddle, Button1, Button2, Button3,
    WheelUp, WheelDown, WheelLeft, WheelRight, ModNone]

set_option maxHeartbeats 2000000 in
/-- A mouse event at a new position while armed and holding the primary
button moves the drag phase to DRAGGING. -/
theorem pollMouse_maybe_moved (s : DragState) (x y : Int) (buttons m : Nat)
    (hd : s.dragState = MAYBE_DRAGGING) (hk : s.lastMouseKey = ButtonPrimary)
    (hb : buttons &&& Button1 ≠ 0) (hmove : x ≠ s.lastX ∨ y ≠ s.lastY) :
    (pollMouse s x y buttons m).1 = { s with dragState := DRAGGING } := by
  have hb0 : buttons ≠ 0 := by
    intro h0; subst h0; simp [Button1] at hb
  rw [pollMouse_fst]
  simp only [mouseStep, NOT_DRAGGING, MAYBE_DRAGGING, DRAGGING, ButtonNone,
    ButtonPrimary, Button1] at *
  split_ifs <;> simp_all

set_option maxHeartbeats 2000000 in
/-- While DRAGGING with the primary button held, every mouse event leaves
the state unchanged and emits Mouse/Left with the motion modifier. -/
theorem pollMouse_dragging_hold (s : DragState) (x y : Int) (buttons m : Nat)
    (hd : s.dragState = DRAGGING) (hk : s.lastMouseKey = ButtonPrimary)
    (hb : buttons &&& Button1 ≠ 0) :
    pollMouse s x y buttons m
      = (s, { type := .eventMouse, MouseX := x, MouseY := y, Key := MouseLeft
              Ch := 0, Mod := ModMotion }) := by
  have hb0 : buttons ≠ 0 := by
    intro h0; subst h0; simp [Button1] at hb
  simp only [pollMouse, NOT_DRAGGING, MAYBE_DRAGGING, DRAGGING, ButtonNone,
    ButtonPrimary, Button1, ModMotion] at *
  split_ifs <;> simp_all

/-- pollEvent on a mouse raw event is pollMouse. -/
theorem pollEvent_mouse (s : DragState) (x y : Int) (buttons mods : Nat) :
    pollEvent s (.mouse x y buttons mods) = pollMouse s x y buttons mods := rfl

/-- C4: pressing the primary button and then moving while it is held
transitions the drag phase to Dragging, and from then on every raw mouse
event with the primary button still held yields a Mouse event with key
Left and the dedicated motion modifier, the state unchanged. -/
theorem c4_drag_transition_and_motion :
    (∀ (x0 y0 x1 y1 : Int) (m0 m1 : Nat), x1 ≠ x0 ∨ y1 ≠ y0 →
      (pollEvent (pollEvent initialState (.mouse x0 y0 Button1 m0)).1
         (.mouse x1 y1 Button1 m1)).1.dragState = DRAGGING)
    ∧ (∀ (s : DragState) (x y : Int) (buttons m : Nat),
        s.dragState = DRAGGING → s.lastMouseKey = ButtonPrimary →
        buttons &&& Button1 ≠ 0 →
        pollEvent s (.mouse x y buttons m)
          = (s, { type := .eventMouse, MouseX := x, MouseY := y, Key := MouseLeft
                  Ch := 0, Mod := ModMotion })) := by
  constructor
  · intro x0 y0 x1 y1 m0 m1 hmove
    have h1 : (pollEvent initialState (.mouse x0 y0 Button1 m0)).1
        = { lastMouseKey := Button1, lastMouseMod := m0, dragState := MAYBE_DRAGGING
            lastX := x0, lastY := y0 } := by
      rw [pollEvent_mouse, pollMouse_press_primary initialState x0 y0 m0 rfl]
    rw [h1, pollEvent_mouse,
      pollMouse_maybe_moved _ x1 y1 Button1 m1 rfl rfl (by decide) hmove]
  · intro s x y buttons m hd hk hb
    exact pollMouse_dragging_hold s x y buttons m hd hk hb

/-- Witness for C4 at concrete inputs: the press at (0,0) followed by a
move to (1,0) reaches DRAGGING, and from a concrete dragging state a
held-button event at (2,3) yields Mouse/Left with the motion modifier. -/
theorem c4_witness :
    (((1 : Int) ≠ 0 ∨ (0 : Int) ≠ 0)
     ∧ (pollEvent (pollEvent initialState (.mouse 0 0 Button1 ModNone)).1
          (.mouse 1 0 Button1 ModNone)).1.dragState = DRAGGING)
    ∧ (({ lastMouseKey := 1, lastMouseMod := 0, dragState := 2, lastX := 1
          lastY := 0 } : DragState).dragState = DRAGGING
       ∧ ({ lastMouseKey := 1, lastMouseMod := 0, dragState := 2, lastX := 1
            lastY := 0 } : DragState).lastMouseKey = ButtonPrimary
       ∧ Button1 &&& Button1 ≠ 0
       ∧ pollEvent ({ lastMouseKey := 1, lastMouseMod := 0, dragState := 2,
                      lastX := 1, lastY := 0 } : DragState) (.mouse 2 3 Button1 ModNone)
          = (({ lastMouseKey := 1, lastMouseMod := 0, dragState := 2, lastX := 1
                lastY := 0 } : DragState),
             { type := .eventMouse, MouseX := 2, MouseY := 3, Key := MouseLeft
               Ch := 0, Mod := ModMotion })) :=
  ⟨⟨Or.inl (by decide),
    c4_drag_transition_and_motion.1 0 0 1 0 ModNone ModNone (Or.inl (by decide))⟩,
   by decide, by decide, by decide,
   c4_drag_transition_and_motion.2 _ 2 3 Button1 ModNone (by decide) (by decide)
     (by decide)⟩

/-- C10: along every event sequence from the initial state the gesture
invariant holds (the drag phase differs from NOT_DRAGGING exactly when
the recorded held button is the primary button), and from a reachable
NOT_DRAGGING state no secondary- or middle-button mouse event moves the
drag phase out of NOT_DRAGGING. -/
theorem c10_gesture_invariant (evs : List TcellEvent) :
    GestureInv (runEvents initialState evs)
    ∧ ∀ (x y : Int) (b m : Nat),
        (runEvents initialState evs).dragState = NOT_DRAGGING →
        (b &&& 255 = ButtonSecondary ∨ b &&& 255 = ButtonMiddle) →
        (pollEvent (runEvents initialState evs) (.mouse x y b m)).1.dragState
          = NOT_DRAGGING := by
  have h0 : GestureInv initialState := by
    simp [GestureInv, initialState, NOT_DRAGGING, ButtonPrimary, Button1, ButtonNone]
  refine ⟨runEvents_inv evs initialState h0, ?_⟩
  intro x y b m hd hb
  rw [pollEvent_mouse, pollMouse_fst]
  exact mouseStep_nonprimary _ x y b m hd hb

/-- Witness for C10 at concrete inputs: the empty event sequence, then a
secondary-button press at (1,2). -/
theorem c10_witness :
    GestureInv (runEvents initialState [])
    ∧ (runEvents initialState []).dragState = NOT_DRAGGING
    ∧ (Button2 &&& 255 = ButtonSecondary ∨ Button2 &&& 255 = ButtonMiddle)
    ∧ (pollEvent (runEvents initialState [])
         (.mouse 1 2 Button2 ModNone)).1.dragState = NOT_DRAGGING :=
  ⟨(c10_gesture_invariant []).1, by decide, by decide,
   (c10_gesture_invariant []).2 1 2 Button2 ModNone (by decide) (by decide)⟩

theorem extractLines_empty_label
    (matcher : String → Option (List (Option String × String)))
    (valueFormat : String) :
    ∀ (lines : List String) (entries : List commandMenuEntry),
      extractLines matcher valueFormat "" lines = some entries →
      ∀ e ∈ entries, e.label = e.value := by
  intro lines
  induction lines with
  | nil =>
      intro entries h e he
      simp only [extractLines, Option.some.injEq] at h
      subst h; cases he
  | cons l t ih =>
      intro entries h e he
      simp only [extractLines] at h
      cases hR : extractLines matcher valueFormat "" t with
      | none => rw [hR] at h; simp at h
      | some es =>
          rw [hR] at h
          simp only [Option.bind_eq_bind, Option.some_bind] at h
          cases hm : matcher l with
          | none => rw [hm] at h; simp at h; subst h; exact ih es hR e he
          | some caps =>
              rw [hm] at h
              simp only [Option.bind_eq_bind, Option.pure_def, Option.some_bind,
                if_true, Option.bind_eq_some, Option.some.injEq] at h
              obtain ⟨v, hv, hE⟩ := h
              subst hE
              rcases List.mem_cons.mp he with rfl | he2
              · rfl
              · exact ih es hR e he2

theorem c9_empty_label_format
    (matcher : String → Option (List (Option String × String)))
    (cmdOut valueFormat : String) (entries : List commandMenuEntry)
    (h : GenerateMenuCandidates matcher cmdOut valueFormat "" = some entries) :
    ∀ e ∈ entries, e.label = e.value := by
  unfold GenerateMenuCandidates at h
  exact extractLines_empty_label matcher valueFormat (splitLines cmdOut) entries h

theorem c9_witness :
    GenerateMenuCandidates matchRemoteBranch "upstream/pr-1"
        "\x7b\x7b .branch \x7d\x7d|\x7b\x7b .remote \x7d\x7d" ""
      = some [{ label := "pr-1|upstream", value := "pr-1|upstream" }]
    ∧ ({ label := "pr-1|upstream", value := "pr-1|upstream" } : commandMenuEntry).label
      = ({ label := "pr-1|upstream", value := "pr-1|upstream" } : commandMenuEntry).value :=
  ⟨by decide,
   c9_empty_label_format matchRemoteBranch "upstream/pr-1"
     "\x7b\x7b .branch \x7d\x7d|\x7b\x7b .remote \x7d\x7d"
     [{ label := "pr-1|upstream", value := "pr-1|upstream" }] (by decide)
     { label := "pr-1|upstream", value := "pr-1|upstream" } (List.mem_singleton.mpr rfl)⟩
